import Mathlib

/-!
Verification of the mirror-accelerated checkout orchestrator
(`src/main.ts` of `nscloud-checkout-action`).

Strings are modelled as lists of characters (`GStr`); JavaScript string
operations map as follows: `s.toUpperCase()` is `List.map Char.toUpper`
(inputs here are ASCII), `s.startsWith(p)` is `startsWithG`,
`s.substring(n)` is `List.drop n`, truthiness of a string is
`!s.isEmpty`. External `git` invocations against the mirror are modelled
by a `Mirror` record holding the (trimmed) answers the two read-only
queries would produce, `none` standing for a failing invocation.
Exceptions are modelled with `Except`.
-/

/-- Model of a JavaScript string: its list of characters. -/
abbrev GStr := List Char

/-- JS `s.toUpperCase()` for the ASCII strings handled here. -/
def upperStr (s : GStr) : GStr := s.map Char.toUpper

/-- Core of `startsWithG`: does the first list occur as a prefix of the
second? Recursion is structural on the prefix. -/
def startsWithCore : GStr → GStr → Bool
  | [], _ => true
  | _ :: _, [] => false
  | p :: pre', c :: s' => p == c && startsWithCore pre' s'

/-- JS `s.startsWith(pre)`. -/
def startsWithG (s pre : GStr) : Bool := startsWithCore pre s

/-- Read-only answers of the mirror repository, as consumed by
`getCheckoutInfo` (main.ts lines 363-379):
`symbolicHead` is the trimmed stdout of
`git --git-dir <mirror> symbolic-ref --quiet HEAD`, and
`revParseFullName r` the trimmed stdout of
`git --git-dir <mirror> rev-parse --verify --symbolic-full-name r`;
`none` models the command exiting nonzero (which makes
`getExecOutput` throw). -/
structure Mirror where
  symbolicHead : Option GStr
  revParseFullName : GStr → Option GStr

/-- `ICheckoutInfo` of main.ts lines 356-361. -/
structure ICheckoutInfo where
  originalRef : GStr
  pointerRef : GStr
  startBranch : Option GStr
  fetchRefs : List GStr
deriving DecidableEq, Repr

/-- The refspec string `+<src>:<dst>` built at main.ts lines 415 and 422. -/
def plusRefspec (src dst : GStr) : GStr := "+".data ++ src ++ ":".data ++ dst

/-- Wildcard heads refspec of main.ts line 420. -/
def wildHeads : GStr := "+refs/heads/*:refs/remotes/origin/*".data

/-- Wildcard tags refspec of main.ts line 420. -/
def wildTags : GStr := "+refs/tags/*:refs/tags/*".data

/-- The pure tail of `getCheckoutInfo` (main.ts lines 381-438): classify
the already-qualified `ref` (lines 384-410) and plan the fetch refspecs
(lines 412-431). `ref` here is the value after the default-branch and
rev-parse resolution steps. -/
def mkCheckoutInfo (ref commit : GStr) (depth : Int) : ICheckoutInfo :=
  let upperRef := upperStr ref
  let base : GStr × GStr × Option GStr :=
    if startsWithG upperRef "REFS/HEADS/".data then
      let branch := ref.drop "refs/heads/".data.length
      (ref, "refs/remotes/origin/".data ++ branch, some branch)
    else if startsWithG upperRef "REFS/PULL/".data then
      let branch := ref.drop "refs/pull/".data.length
      (ref, "refs/remotes/pull/".data ++ branch, none)
    else if !ref.isEmpty then
      (ref, ref, none)
    else
      (commit, commit, none)
  let pointerRef := base.2.1
  let fetchRefs :=
    if depth > 0 then
      if !ref.isEmpty then
        [plusRefspec (if commit.isEmpty then ref else commit) pointerRef]
      else
        [commit]
    else
      if !ref.isEmpty && !startsWithG upperRef "REFS/HEADS/".data
          && !startsWithG upperRef "REFS/TAGS/".data then
        [wildHeads, wildTags] ++ [plusRefspec (if commit.isEmpty then ref else commit) pointerRef]
      else if ref.isEmpty && !commit.isEmpty then
        [wildHeads, wildTags] ++ [commit]
      else
        [wildHeads, wildTags]
  { originalRef := base.1, pointerRef := pointerRef, startBranch := base.2.2,
    fetchRefs := fetchRefs }

/-- The two resolution steps at the head of `getCheckoutInfo` (main.ts
lines 364-379): when both `ref` and `commit` are empty, adopt the
mirror's symbolic HEAD as `ref`; when `ref` is unqualified (does not
start with `refs/`, case-insensitively), resolve it with
`rev-parse --verify --symbolic-full-name`. A failing mirror query
throws. -/
def resolveRefPhase (ref commit : GStr) (m : Mirror) : Except GStr GStr :=
  let step1 : Except GStr GStr :=
    if ref.isEmpty && commit.isEmpty then
      match m.symbolicHead with
      | some h => .ok h
      | none => .error "git symbolic-ref --quiet HEAD failed".data
    else
      .ok ref
  match step1 with
  | .error e => .error e
  | .ok ref1 =>
    if !ref1.isEmpty && !startsWithG (upperStr ref1) "REFS/".data then
      match m.revParseFullName ref1 with
      | some r => .ok r
      | none => .error "git rev-parse --verify --symbolic-full-name failed".data
    else
      .ok ref1

/-- `getCheckoutInfo` (main.ts lines 363-439): resolve, then classify
and plan. -/
def getCheckoutInfo (ref commit : GStr) (depth : Int) (m : Mirror) :
    Except GStr ICheckoutInfo :=
  match resolveRefPhase ref commit m with
  | .error e => .error e
  | .ok r => .ok (mkCheckoutInfo r commit depth)

/-- `fetchDepthFlags` of main.ts line 118:
`config.fetchDepth <= 0 ? [] : ['--depth', depth, '--no-tags']`. -/
def fetchDepthFlags (fetchDepth : Int) : List GStr :=
  if fetchDepth ≤ 0 then [] else ["--depth".data, (toString fetchDepth).data, "--no-tags".data]

/-- External operations performed while preparing the mirror
(main.ts lines 71-89). -/
inductive MirrorOp where
  | mkdirOp
  | cloneOp
  | fetchOp
  | lfsFetchOp
deriving DecidableEq, Repr

/-- Mirror preparation (the `ensureMirror` step of main.ts lines 71-89):
when the mirror directory does not exist, create it and run
`git clone --mirror`; in every case run the incremental
`git fetch --prune` into the mirror; when LFS is requested also run
`git lfs fetch origin`. Returns the external operations in order. -/
def ensureMirrorOps (mirrorDirExists downloadGitLFS : Bool) : List MirrorOp :=
  (if !mirrorDirExists then [MirrorOp.mkdirOp, MirrorOp.cloneOp] else [])
    ++ [MirrorOp.fetchOp]
    ++ (if downloadGitLFS then [MirrorOp.lfsFetchOp] else [])

/-- Standard base64 alphabet. -/
def base64Alphabet : List Char :=
  "ABCDEFGHIJKLMNOPQRSTUVWXYZabcdefghijklmnopqrstuvwxyz0123456789+/".data

/-- The base64 digit for a 6-bit value. -/
def b64Char (n : Nat) : Char := base64Alphabet.getD n 'A'

/-- Base64 of a byte list, three bytes at a time, with `=` padding. -/
def base64Chunks : List Nat → List Char
  | [] => []
  | [b0] =>
    [b64Char (b0 / 4), b64Char (b0 % 4 * 16), '=', '=']
  | [b0, b1] =>
    [b64Char (b0 / 4), b64Char (b0 % 4 * 16 + b1 / 16), b64Char (b1 % 16 * 4), '=']
  | b0 :: b1 :: b2 :: rest =>
    b64Char (b0 / 4) :: b64Char (b0 % 4 * 16 + b1 / 16) ::
      b64Char (b1 % 16 * 4 + b2 / 64) :: b64Char (b2 % 64) :: base64Chunks rest

/-- `Buffer.from(s, 'utf8').toString('base64')` for the ASCII strings
handled here. -/
def base64Encode (s : GStr) : GStr := base64Chunks (s.map Char.toNat)

/-- The basic-auth credential computed in `configGitAuth`
(main.ts line 469): base64 of `x-access-token:<token>`. -/
def basicCredential (token : GStr) : GStr :=
  base64Encode ("x-access-token:".data ++ token)

/-- A git configuration store at one scope: the ordered multiset of
(key, value) entries, as manipulated by `git config --add` /
`--unset-all`. -/
abbrev GitConfig := List (GStr × GStr)

/-- The `http.https://github.com/.extraheader` configuration key. -/
def extraheaderKey : GStr := "http.https://github.com/.extraheader".data

/-- The `url.https://github.com/.insteadOf` configuration key. -/
def insteadOfKey : GStr := "url.https://github.com/.insteadOf".data

/-- `git config --unset-all <key>` (with `ignoreReturnCode`): removes
every entry with that key. -/
def configUnsetAll (key : GStr) (cfg : GitConfig) : GitConfig :=
  cfg.filter (fun e => e.1 != key)

/-- `git config --add <key> <value>`: appends an entry. -/
def configAdd (key value : GStr) (cfg : GitConfig) : GitConfig :=
  cfg ++ [(key, value)]

/-- `configGitAuth` (main.ts lines 467-486) acting on the config store
of the selected scope: first `--unset-all` the previous extraheader
(NSL-2981), then `--add` the authorization header, then `--add` the
SSH-to-HTTPS `insteadOf` rewrite. -/
def configGitAuth (token : GStr) (cfg : GitConfig) : GitConfig :=
  configAdd insteadOfKey "git@github.com:".data
    (configAdd extraheaderKey
      ("AUTHORIZATION: basic ".data ++ basicCredential token)
      (configUnsetAll extraheaderKey cfg))

/-- `cleanupGitAuth` (main.ts lines 488-494) acting on the config store
of the selected scope: `--unset-all` both the extraheader and the
`insteadOf` rewrite. -/
def cleanupGitAuth (cfg : GitConfig) : GitConfig :=
  configUnsetAll insteadOfKey (configUnsetAll extraheaderKey cfg)

/-- Number of entries with the given key in a config store. -/
def countKey (key : GStr) (cfg : GitConfig) : Nat :=
  (cfg.filter (fun e => e.1 == key)).length

/-- The fallible stages of `main` (main.ts lines 9-215) in execution
order: the precondition checks before credentials are installed, then
the mirror refresh, ref resolution, working-checkout fetch, checkout,
and submodule stages, each of which may throw. -/
inductive MainStep where
  | precheck
  | mirror
  | resolve
  | fetch
  | checkout
  | submodules
deriving DecidableEq, Repr

/-- The global and repo-local git configuration stores touched by
`main`. -/
structure AuthState where
  globalCfg : GitConfig
  localCfg : GitConfig
deriving DecidableEq, Repr

/-- The credential lifecycle of `main` (main.ts lines 9-215), with the
fallible stages abstracted by a failure schedule `fails`. Inside the
`try` block: the precondition checks run first; then
`configGitAuth(token, {global:true})` installs global credentials; the
mirror / resolve / fetch / checkout / submodule stages run in order and
the first failing one throws, transferring control to the `catch`
handler (line 211), which only calls `core.setFailed` — the function
then returns. Only when no stage throws does execution reach lines
200-210: optional local persistence, then
`cleanupGitAuth({global:true})`. Returns the final configuration stores
and whether the run succeeded. -/
def mainModel (token : GStr) (persist : Bool) (fails : MainStep → Bool) :
    AuthState × Bool :=
  if fails MainStep.precheck then (⟨[], []⟩, false)
  else
    let s1 : AuthState := ⟨configGitAuth token [], []⟩
    if fails MainStep.mirror then (s1, false)
    else if fails MainStep.resolve then (s1, false)
    else if fails MainStep.fetch then (s1, false)
    else if fails MainStep.checkout then (s1, false)
    else if fails MainStep.submodules then (s1, false)
    else
      let s2 := if persist then { s1 with localCfg := configGitAuth token s1.localCfg } else s1
      let s3 := { s2 with globalCfg := cleanupGitAuth s2.globalCfg }
      (s3, true)

deriving instance DecidableEq for Except

/-- Outcome of `execWithGitEnv`: the final result (exit code or thrown
error), the number of times the command was invoked, and the backoff
delays logged as warnings before each retry. -/
structure RetryOutcome where
  result : Except GStr Nat
  calls : Nat
  delays : List Nat
deriving DecidableEq, Repr

/-- The retry loop of `execWithGitEnv` (main.ts lines 549-561): the
command is modelled as a function from the attempt number to its
outcome. On success return immediately; on failure record the error
and, when attempts remain, log a warning with delay
`attempt * 1000` ms and retry; after the loop, throw the last error. -/
def execAttemptLoop (cmd : Nat → Except GStr Nat) (maxAttempts attempt : Nat)
    (lastError : Option GStr) : RetryOutcome :=
  if _hle : attempt ≤ maxAttempts then
    match cmd attempt with
    | .ok rc => { result := .ok rc, calls := 1, delays := [] }
    | .error e =>
      let rest := execAttemptLoop cmd maxAttempts (attempt + 1) (some e)
      if attempt < maxAttempts then
        { result := rest.result, calls := rest.calls + 1,
          delays := attempt * 1000 :: rest.delays }
      else
        { result := rest.result, calls := rest.calls + 1, delays := rest.delays }
  else
    { result := .error (lastError.getD []), calls := 0, delays := [] }
termination_by maxAttempts + 1 - attempt
decreasing_by omega

/-- `execWithGitEnv` (main.ts lines 546-562): run the retry loop
starting at attempt 1 with no last error. -/
def execWithGitEnv (cmd : Nat → Except GStr Nat) (maxAttempts : Nat) : RetryOutcome :=
  execAttemptLoop cmd maxAttempts 1 none

/-- A concrete mirror whose HEAD points at `refs/heads/main`. -/
def mirrorMain : Mirror :=
  { symbolicHead := some "refs/heads/main".data, revParseFullName := fun _ => none }

/-- A command that fails on the first two invocations and succeeds on
the third. -/
def flakyCmd : Nat → Except GStr Nat :=
  fun attempt => if attempt ≤ 2 then .error "connection reset".data else .ok 0

/-- A command that fails on every invocation. -/
def failCmd : Nat → Except GStr Nat := fun _ => .error "connection reset".data

/-- The failure schedule where only the working-checkout fetch stage
throws. -/
def failsAtFetch : MainStep → Bool := fun s => s == MainStep.fetch

/-! ## Helper lemmas -/

theorem countKey_configUnsetAll (k : GStr) (c : GitConfig) :
    countKey k (configUnsetAll k c) = 0 := by
  simp only [countKey, configUnsetAll, List.filter_filter]
  simp [List.filter_eq_nil_iff]

theorem countKey_configAdd_same (k v : GStr) (c : GitConfig) :
    countKey k (configAdd k v c) = countKey k c + 1 := by
  simp [countKey, configAdd, List.filter_append]

theorem countKey_configAdd_other (k k' v : GStr) (c : GitConfig) (h : (k' == k) = false) :
    countKey k (configAdd k' v c) = countKey k c := by
  simp [countKey, configAdd, List.filter_append, h]

/-! ## Claim theorems -/

/-- C8: for every branch ref `refs/heads/X`, resolution yields
originalRef `refs/heads/X`, pointerRef `refs/remotes/origin/X`, and
startBranch `X`. -/
theorem branch_ref_resolution (branch commit : GStr) (depth : Int) (m : Mirror) :
    getCheckoutInfo ("refs/heads/".data ++ branch) commit depth m
      = .ok (mkCheckoutInfo ("refs/heads/".data ++ branch) commit depth)
    ∧ (mkCheckoutInfo ("refs/heads/".data ++ branch) commit depth).originalRef
      = "refs/heads/".data ++ branch
    ∧ (mkCheckoutInfo ("refs/heads/".data ++ branch) commit depth).pointerRef
      = "refs/remotes/origin/".data ++ branch
    ∧ (mkCheckoutInfo ("refs/heads/".data ++ branch) commit depth).startBranch
      = some branch :=
  ⟨rfl, rfl, rfl, rfl⟩

/-- C3 counterexample: the pull ref `refs/pull/123/merge` resolves to
pointerRef `refs/remotes/pull/123/merge`, not `refs/remotes/pull/123`
(the pull number alone), refuting the claim as stated. -/
theorem pull_ref_number_alone_cex :
    getCheckoutInfo "refs/pull/123/merge".data [] 1 mirrorMain
      = .ok (mkCheckoutInfo "refs/pull/123/merge".data [] 1)
    ∧ (mkCheckoutInfo "refs/pull/123/merge".data [] 1).pointerRef
      = "refs/remotes/pull/123/merge".data
    ∧ (mkCheckoutInfo "refs/pull/123/merge".data [] 1).pointerRef
      ≠ "refs/remotes/pull/123".data :=
  ⟨rfl, rfl, by decide⟩

/-- C3 (amended): for every pull ref `refs/pull/S` (`S` the whole
remainder after `refs/pull/`), resolution yields pointerRef
`refs/remotes/pull/S`, keeping the entire suffix (for example
`refs/pull/123/merge` yields `refs/remotes/pull/123/merge`). -/
theorem pull_ref_pointer_keeps_suffix (s commit : GStr) (depth : Int) (m : Mirror) :
    getCheckoutInfo ("refs/pull/".data ++ s) commit depth m
      = .ok (mkCheckoutInfo ("refs/pull/".data ++ s) commit depth)
    ∧ (mkCheckoutInfo ("refs/pull/".data ++ s) commit depth).originalRef
      = "refs/pull/".data ++ s
    ∧ (mkCheckoutInfo ("refs/pull/".data ++ s) commit depth).pointerRef
      = "refs/remotes/pull/".data ++ s
    ∧ (mkCheckoutInfo ("refs/pull/".data ++ s) commit depth).startBranch = none :=
  ⟨rfl, rfl, rfl, rfl⟩

/-- C2 counterexample: with both ref and commit empty, `getCheckoutInfo`
does not fail with a precondition error — it resolves the mirror's
symbolic HEAD (here `refs/heads/main`) and returns a successful
checkout plan for the default branch. -/
theorem empty_ref_commit_resolves_cex :
    getCheckoutInfo [] [] 1 mirrorMain
      = .ok { originalRef := "refs/heads/main".data,
              pointerRef := "refs/remotes/origin/main".data,
              startBranch := some "main".data,
              fetchRefs := ["+refs/heads/main:refs/remotes/origin/main".data] } := rfl

/-- C2 (amended): when both ref and commit are empty, `getCheckoutInfo`
does not fail fast; it queries the mirror's symbolic HEAD once (no
retry), adopts the returned default-branch ref, and proceeds with
normal classification; it fails only if that mirror query itself
fails. -/
theorem empty_ref_commit_uses_default_branch (depth : Int) (m : Mirror) :
    (∀ h : GStr, m.symbolicHead = some h →
        startsWithG (upperStr h) "REFS/".data = true →
        getCheckoutInfo [] [] depth m = .ok (mkCheckoutInfo h [] depth))
    ∧ (m.symbolicHead = none →
        getCheckoutInfo [] [] depth m
          = .error "git symbolic-ref --quiet HEAD failed".data) := by
  constructor
  · intro h hm hpre
    simp [getCheckoutInfo, resolveRefPhase, hm, hpre]
  · intro hm
    simp [getCheckoutInfo, resolveRefPhase, hm]

/-- C2 witness: instantiation of the amended claim at a concrete
mirror whose HEAD is `refs/heads/main`. -/
theorem empty_ref_commit_uses_default_branch_witness :
    mirrorMain.symbolicHead = some "refs/heads/main".data
    ∧ startsWithG (upperStr "refs/heads/main".data) "REFS/".data = true
    ∧ getCheckoutInfo [] [] 0 mirrorMain
        = .ok (mkCheckoutInfo "refs/heads/main".data [] 0) :=
  ⟨rfl, rfl,
    (empty_ref_commit_uses_default_branch 0 mirrorMain).1 "refs/heads/main".data rfl rfl⟩

/-- C1: evaluation of the credential lifecycle at the failing input.
When the working-checkout fetch stage throws, `main` returns through
its catch handler without reaching the cleanup call: the run fails and
the global `http.https://github.com/.extraheader` and
`url.https://github.com/.insteadOf` entries are still installed. On a
fully successful run the same entries are removed. -/
theorem fetch_failure_leaves_global_credentials :
    (mainModel "tok".data false failsAtFetch).2 = false
    ∧ countKey extraheaderKey (mainModel "tok".data false failsAtFetch).1.globalCfg = 1
    ∧ countKey insteadOfKey (mainModel "tok".data false failsAtFetch).1.globalCfg = 1
    ∧ countKey extraheaderKey (mainModel "tok".data false (fun _ => false)).1.globalCfg = 0
    ∧ countKey insteadOfKey (mainModel "tok".data false (fun _ => false)).1.globalCfg = 0 := by
  decide

/-- C7: mirror preparation is idempotent with respect to an existing
mirror: when the mirror directory exists, no clone runs and the
incremental fetch is the only repository operation; when it does not
exist, exactly one clone runs (after the mkdir, before the fetch). -/
theorem ensureMirror_idempotent (lfs : Bool) :
    ensureMirrorOps true lfs
      = [MirrorOp.fetchOp] ++ (if lfs then [MirrorOp.lfsFetchOp] else [])
    ∧ ensureMirrorOps false lfs
      = [MirrorOp.mkdirOp, MirrorOp.cloneOp, MirrorOp.fetchOp]
          ++ (if lfs then [MirrorOp.lfsFetchOp] else [])
    ∧ (ensureMirrorOps true lfs).count MirrorOp.cloneOp = 0
    ∧ (ensureMirrorOps false lfs).count MirrorOp.cloneOp = 1 := by
  cases lfs <;> decide

/-- C9: credential installation is idempotent: `configGitAuth` first
removes every prior extraheader entry at the scope, so a single install
leaves exactly one header entry and installing twice still leaves
exactly one, never accumulated duplicates. -/
theorem configGitAuth_idempotent_install (cfg : GitConfig) (tok1 tok2 : GStr) :
    countKey extraheaderKey (configGitAuth tok1 cfg) = 1
    ∧ countKey extraheaderKey (configGitAuth tok1 (configGitAuth tok2 cfg)) = 1 := by
  have hne : (insteadOfKey == extraheaderKey) = false := by decide
  have h1 : ∀ (tok : GStr) (c : GitConfig), countKey extraheaderKey (configGitAuth tok c) = 1 := by
    intro tok c
    rw [configGitAuth, countKey_configAdd_other _ _ _ _ hne,
      countKey_configAdd_same, countKey_configUnsetAll]
  exact ⟨h1 tok1 cfg, h1 tok1 (configGitAuth tok2 cfg)⟩

/-- C5: for every shallow request (depth > 0) whose resolution produced
a non-empty ref, the planned fetch refspec list is exactly one element
`+<commit-or-ref>:<pointerRef>` (the commit when non-empty, otherwise
the ref); when only a commit is known it is exactly the bare commit. -/
theorem shallow_fetch_plan_single_target (ref commit : GStr) (depth : Int) (hd : depth > 0) :
    (ref.isEmpty = false →
      (mkCheckoutInfo ref commit depth).fetchRefs
        = [plusRefspec (if commit.isEmpty then ref else commit)
            (mkCheckoutInfo ref commit depth).pointerRef])
    ∧ (ref.isEmpty = true →
      (mkCheckoutInfo ref commit depth).fetchRefs = [commit]) := by
  unfold mkCheckoutInfo
  refine ⟨fun h => ?_, fun h => ?_⟩ <;> simp [h, hd]

/-- C5 witness: shallow planning at depth 2 for `refs/heads/main` with
no commit yields the single refspec
`+refs/heads/main:refs/remotes/origin/main`. -/
theorem shallow_fetch_plan_single_target_witness :
    (2 : Int) > 0
    ∧ ("refs/heads/main".data : GStr).isEmpty = false
    ∧ (mkCheckoutInfo "refs/heads/main".data [] 2).fetchRefs
        = ["+refs/heads/main:refs/remotes/origin/main".data] := by
  refine ⟨by decide, by decide, ?_⟩
  have h := (shallow_fetch_plan_single_target "refs/heads/main".data [] 2 (by decide)).1 (by decide)
  rw [h]
  decide

/-- C6: full-depth planning (depth = 0) with only a commit supplied
yields the wildcard heads and tags refspecs plus the bare commit as an
explicit fetch target. -/
theorem full_depth_commit_only_plan (commit : GStr) (m : Mirror) (hc : commit.isEmpty = false) :
    getCheckoutInfo [] commit 0 m = .ok (mkCheckoutInfo [] commit 0)
    ∧ (mkCheckoutInfo [] commit 0).fetchRefs = [wildHeads, wildTags, commit] := by
  constructor
  · simp [getCheckoutInfo, resolveRefPhase, hc]
  · unfold mkCheckoutInfo
    simp [hc]

/-- C6 witness: instantiation at a concrete 40-hex commit. -/
theorem full_depth_commit_only_plan_witness :
    ("0123456789abcdef0123456789abcdef01234567".data : GStr).isEmpty = false
    ∧ (mkCheckoutInfo [] "0123456789abcdef0123456789abcdef01234567".data 0).fetchRefs
        = [wildHeads, wildTags, "0123456789abcdef0123456789abcdef01234567".data] :=
  ⟨by decide,
    (full_depth_commit_only_plan "0123456789abcdef0123456789abcdef01234567".data
      mirrorMain (by decide)).2⟩

/-- C10: every fetch depth ≤ 0, including negative values, behaves
exactly as depth 0: the working-checkout fetch gets no `--depth` or
`--no-tags` flags, and the planner produces the same (full wildcard)
refspecs as depth 0; only depth > 0 triggers shallow planning. -/
theorem nonpositive_depth_full_history (depth : Int) (hd : depth ≤ 0) :
    fetchDepthFlags depth = []
    ∧ ∀ ref commit : GStr, mkCheckoutInfo ref commit depth = mkCheckoutInfo ref commit 0 := by
  have h1 : ¬ depth > 0 := by omega
  constructor
  · simp [fetchDepthFlags, hd]
  · intro ref commit
    unfold mkCheckoutInfo
    simp [h1]

/-- C10 witness: instantiation at depth -1. -/
theorem nonpositive_depth_full_history_witness :
    (-1 : Int) ≤ 0
    ∧ fetchDepthFlags (-1) = []
    ∧ mkCheckoutInfo "refs/tags/v1".data [] (-1) = mkCheckoutInfo "refs/tags/v1".data [] 0 := by
  refine ⟨by decide, ?_, ?_⟩
  · exact (nonpositive_depth_full_history (-1) (by decide)).1
  · exact (nonpositive_depth_full_history (-1) (by decide)).2 "refs/tags/v1".data []

theorem execAttemptLoop_ok (cmd : Nat → Except GStr Nat) (maxAttempts attempt : Nat)
    (lastError : Option GStr) (h : attempt ≤ maxAttempts) (rc : Nat)
    (hc : cmd attempt = .ok rc) :
    execAttemptLoop cmd maxAttempts attempt lastError
      = { result := .ok rc, calls := 1, delays := [] } := by
  rw [execAttemptLoop]
  simp [h, hc]

theorem execAttemptLoop_err (cmd : Nat → Except GStr Nat) (maxAttempts attempt : Nat)
    (lastError : Option GStr) (h : attempt ≤ maxAttempts) (e : GStr)
    (hc : cmd attempt = .error e) :
    execAttemptLoop cmd maxAttempts attempt lastError
      = (let rest := execAttemptLoop cmd maxAttempts (attempt + 1) (some e)
         if attempt < maxAttempts then
           { result := rest.result, calls := rest.calls + 1,
             delays := attempt * 1000 :: rest.delays }
         else
           { result := rest.result, calls := rest.calls + 1, delays := rest.delays }) := by
  rw [execAttemptLoop]
  simp [h, hc]

theorem execAttemptLoop_stop (cmd : Nat → Except GStr Nat) (maxAttempts attempt : Nat)
    (lastError : Option GStr) (h : ¬ attempt ≤ maxAttempts) :
    execAttemptLoop cmd maxAttempts attempt lastError
      = { result := .error (lastError.getD []), calls := 0, delays := [] } := by
  rw [execAttemptLoop]
  simp [h]

/-- C4: `execWithGitEnv` with maxAttempts = 3: a command failing on its
first two invocations and succeeding on the third yields success after
exactly 3 invocations with exactly 2 retry warnings whose delays are
1×1000 ms and 2×1000 ms (linear backoff `attempt * 1000`); a command
failing on all three invocations is invoked exactly 3 times and the run
fails with the last error, again after the same 2 warnings. -/
theorem execWithGitEnv_retry_behavior :
    (∀ (cmd : Nat → Except GStr Nat) (e1 e2 : GStr) (v : Nat),
      cmd 1 = .error e1 → cmd 2 = .error e2 → cmd 3 = .ok v →
      execWithGitEnv cmd 3 = { result := .ok v, calls := 3, delays := [1000, 2000] })
    ∧ (∀ (cmd : Nat → Except GStr Nat) (e1 e2 e3 : GStr),
      cmd 1 = .error e1 → cmd 2 = .error e2 → cmd 3 = .error e3 →
      execWithGitEnv cmd 3 = { result := .error e3, calls := 3, delays := [1000, 2000] }) := by
  constructor
  · intro cmd e1 e2 v h1 h2 h3
    rw [execWithGitEnv,
      execAttemptLoop_err cmd 3 1 none (by omega) e1 h1,
      execAttemptLoop_err cmd 3 2 (some e1) (by omega) e2 h2,
      execAttemptLoop_ok cmd 3 3 (some e2) (by omega) v h3]
    simp
  · intro cmd e1 e2 e3 h1 h2 h3
    rw [execWithGitEnv,
      execAttemptLoop_err cmd 3 1 none (by omega) e1 h1,
      execAttemptLoop_err cmd 3 2 (some e1) (by omega) e2 h2,
      execAttemptLoop_err cmd 3 3 (some e2) (by omega) e3 h3,
      execAttemptLoop_stop cmd 3 4 (some e3) (by omega)]
    simp

/-- C4 witness: instantiation with a command failing twice then
succeeding, and a command that always fails. -/
theorem execWithGitEnv_retry_behavior_witness :
    execWithGitEnv flakyCmd 3 = { result := .ok 0, calls := 3, delays := [1000, 2000] }
    ∧ execWithGitEnv failCmd 3
      = { result := .error "connection reset".data, calls := 3, delays := [1000, 2000] } :=
  ⟨execWithGitEnv_retry_behavior.1 flakyCmd "connection reset".data "connection reset".data 0
      rfl rfl rfl,
    execWithGitEnv_retry_behavior.2 failCmd "connection reset".data "connection reset".data
      "connection reset".data rfl rfl rfl⟩
